import Mathlib

set_option maxRecDepth 40000
set_option maxHeartbeats 1000000

/-!
Verification development for the stats tracker application (src/app.py).

The application is a single-process CRUD service over two SQLite tables,
stats and entries.  We give a shallow embedding of the persistence layer:

* a runtime model (MiniDB) of the two tables in their current shape,
  together with the request handlers that read and write them
  (create_stat, add_numeric_entry, add_ratio_entry, set_daily_count,
  increment_daily_count, delete_stat, delete_entry);
* a migration model (MigDB) of arbitrarily old on-disk schemas,
  together with the startup migration pipeline init_db.

Numbers are modelled with Rat (REAL columns) and Int (INTEGER columns);
Python string primitives (strip, replace, float, int) are modelled as
executable functions on character lists.  Each operation is translated
from the corresponding Python function in src/app.py.
-/

namespace App

/-! ## Python string and number primitives -/

/-- Whitespace characters removed by the Python str.strip method. -/
def isPySpace (c : Char) : Bool :=
  c = ' ' || c = '\t' || c = '\n' || c = '\r' || c = '\x0b' || c = '\x0c'

/-- Models the Python expression s.strip(): removes leading and trailing
whitespace. -/
def pyStrip (s : String) : String :=
  String.mk (((s.data.dropWhile isPySpace).reverse.dropWhile isPySpace).reverse)

/-- Models the Python expression s.replace(a, b) for single-character
patterns, as used by the handlers (replacing a comma with a dot, and a
newline with a space). -/
def pyReplace (s : String) (a b : Char) : String :=
  String.mk (s.data.map (fun c => if c = a then b else c))

/-- Numeric value of a list of decimal digit characters. -/
def digitsVal (cs : List Char) : Nat :=
  cs.foldl (fun n c => 10 * n + (c.toNat - 48)) 0

/-- Models the Python builtin float() on plain decimal strings: optional
surrounding whitespace, an optional sign, then digits with at most one
dot and at least one digit overall.  The resulting REAL value is modelled
exactly as a rational (binary floating point rounding is outside the
model).  Exotic inputs accepted by CPython (exponents, inf, nan,
underscores) are outside the modelled input space; a malformed string
yields none, modelling a raised ValueError. -/
def parseFloat (s : String) : Option Rat :=
  let cs := (pyStrip s).data
  let sgn : Int := match cs with
    | '-' :: _ => -1
    | _ => 1
  let cs2 := match cs with
    | '-' :: r => r
    | '+' :: r => r
    | _ => cs
  let intPart := cs2.takeWhile (fun c => c != '.')
  let rest := cs2.drop intPart.length
  match rest with
  | [] =>
    if !intPart.isEmpty && intPart.all Char.isDigit then
      some (mkRat (sgn * (digitsVal intPart : Nat)) 1)
    else
      none
  | '.' :: frac =>
    if (!intPart.isEmpty || !frac.isEmpty)
        && intPart.all Char.isDigit && frac.all Char.isDigit then
      some (mkRat (sgn * ((digitsVal intPart * 10 ^ frac.length + digitsVal frac : Nat)))
        (10 ^ frac.length))
    else
      none
  | _ => none

/-- Models the Python builtin int() on decimal strings: optional
surrounding whitespace, an optional sign, then at least one digit.
A malformed string yields none, modelling a raised ValueError. -/
def parseInt (s : String) : Option Int :=
  let cs := (pyStrip s).data
  let sgn : Int := match cs with
    | '-' :: _ => -1
    | _ => 1
  let cs2 := match cs with
    | '-' :: r => r
    | '+' :: r => r
    | _ => cs
  if !cs2.isEmpty && cs2.all Char.isDigit then
    some (sgn * (digitsVal cs2 : Nat))
  else
    none

/-- Models the Python builtin int() applied to a REAL value: truncation
toward zero. -/
def ratTruncToInt (q : Rat) : Int :=
  Int.tdiv q.num (q.den : Int)

/-- An integer stored into a REAL column, as produced by the Python
expression float(c) for an int c. -/
def intToReal (c : Int) : Rat := mkRat c 1

/-! ## Runtime data model

The two tables in their current shape, as created by init_db on a fresh
database.  Rows are kept in insertion (rowid) order; nextStatId and
nextEntryId model the AUTOINCREMENT counters. -/

/-- A row of the stats table. -/
structure Stat where
  id : Nat
  name : String
  unit : String
  kind : String
  created_at : String
deriving DecidableEq, Repr

/-- A row of the entries table (current shape). -/
structure Entry where
  id : Nat
  stat_id : Nat
  day : String
  value_num : Option Rat
  value_bool : Option Int
  value_hits : Option Int
  value_total : Option Int
  note : Option String
  created_at : String
deriving DecidableEq, Repr

/-- The persistent store in its current shape. -/
structure MiniDB where
  stats : List Stat
  entries : List Entry
  nextStatId : Nat
  nextEntryId : Nat
deriving DecidableEq, Repr

/-- Where a handler redirects the browser: the home page or a stat
detail page. -/
inductive Resp where
  | home : Resp
  | statPage (sid : Nat) : Resp
deriving DecidableEq, Repr

/-- Outcome of a request handler: either a redirect response, or an
uncaught Python exception (a fatal request failure, HTTP 500). -/
inductive Outcome where
  | ok (r : Resp) : Outcome
  | raised : Outcome
deriving DecidableEq, Repr

/-- SELECT * FROM stats WHERE id = sid, fetchone: the first row with the
given id. -/
def findStat (stats : List Stat) (sid : Nat) : Option Stat :=
  stats.find? (fun s => s.id == sid)

/-- The WHERE stat_id = sid AND day = d condition used by the
count_daily handlers. -/
def entryMatches (sid : Nat) (d : String) (e : Entry) : Bool :=
  e.stat_id == sid && e.day == d

/-- SELECT ... WHERE stat_id = sid AND day = d ORDER BY id DESC LIMIT 1,
fetchone: the row with the greatest id among the matches (ids are
unique). -/
def latestEntry : List Entry → Option Entry
  | [] => none
  | e :: es =>
    match latestEntry es with
    | none => some e
    | some f => some (if e.id ≥ f.id then e else f)

/-- The Python expression note.strip() or None used when persisting a
note field. -/
def optNote (note : String) : Option String :=
  if pyStrip note = "" then none else some (pyStrip note)

/-- The Python expression (day or "").strip() or date.today().isoformat()
that defaults a blank day field to the current date. -/
def resolveDay (day today : String) : String :=
  if pyStrip day = "" then today else pyStrip day

/-! ## Stat repository (create_stat, delete_stat, delete_entry) -/

/-- Handler create_stat (POST /stats): trims the kind (after defaulting
a blank kind to numeric), coerces an invalid kind to numeric, trims the
name, clears the unit unless the kind is numeric, and inserts the row. -/
def create_stat (db : MiniDB) (name kind unit now : String) : MiniDB × Resp :=
  let kind1 := pyStrip (if kind = "" then "numeric" else kind)
  let kind2 :=
    if kind1 = "numeric" ∨ kind1 = "ratio" ∨ kind1 = "count_daily" then kind1 else "numeric"
  let unit1 := if kind2 ≠ "numeric" then "" else pyStrip unit
  let row : Stat :=
    { id := db.nextStatId, name := pyStrip name, unit := unit1, kind := kind2,
      created_at := now }
  ({ db with stats := db.stats ++ [row], nextStatId := db.nextStatId + 1 }, .home)

/-- Handler delete_stat (POST /stat/sid/delete): DELETE FROM stats WHERE
id = sid; with PRAGMA foreign_keys = ON the ON DELETE CASCADE clause also
removes the entries referencing a deleted row. -/
def delete_stat (db : MiniDB) (sid : Nat) : MiniDB × Resp :=
  let stats2 := db.stats.filter (fun s => !(s.id == sid))
  let entries2 :=
    if db.stats.any (fun s => s.id == sid) then
      db.entries.filter (fun e => !(e.stat_id == sid))
    else
      db.entries
  ({ db with stats := stats2, entries := entries2 }, .home)

/-- Handler delete_entry (POST /entry/eid/delete): DELETE FROM entries
WHERE id = eid, then redirect to the stat page named by the form. -/
def delete_entry (db : MiniDB) (eid : Nat) (sidForm : Nat) : MiniDB × Resp :=
  ({ db with entries := db.entries.filter (fun e => !(e.id == eid)) }, .statPage sidForm)

/-! ## Entry repository

Each handler returns the store after the request together with an
Outcome: Outcome.raised models an uncaught Python exception (a fatal
request failure), Outcome.ok the redirect sent on completion. -/

/-- Handler add_numeric_entry (POST /stat/sid/entries): parses the value
accepting comma or dot as decimal separator (a parse failure raises and
nothing is written), resolves the day, fails soft unless the stat exists
with kind numeric, and always inserts a new row. -/
def add_numeric_entry (db : MiniDB) (sid : Nat) (value day note today now : String) :
    MiniDB × Outcome :=
  let d := resolveDay day today
  match parseFloat (pyReplace value ',' '.') with
  | none => (db, .raised)
  | some v =>
    match findStat db.stats sid with
    | none => (db, .ok .home)
    | some st =>
      if st.kind ≠ "numeric" then (db, .ok (.statPage sid))
      else
        let row : Entry :=
          { id := db.nextEntryId, stat_id := sid, day := d, value_num := some v,
            value_bool := none, value_hits := none, value_total := none,
            note := optNote note, created_at := now }
        ({ db with entries := db.entries ++ [row], nextEntryId := db.nextEntryId + 1 },
          .ok (.statPage sid))

/-- Handler add_ratio_entry (POST /stat/sid/ratio): parses hits and total
(a parse failure raises and nothing is written), silently drops the write
when the bounds are violated, fails soft unless the stat exists with kind
ratio, and otherwise always inserts a new row. -/
def add_ratio_entry (db : MiniDB) (sid : Nat) (hits total day note today now : String) :
    MiniDB × Outcome :=
  let d := resolveDay day today
  match parseInt (pyStrip hits) with
  | none => (db, .raised)
  | some h =>
    match parseInt (pyStrip total) with
    | none => (db, .raised)
    | some t =>
      if t ≤ 0 ∨ h < 0 ∨ h > t then (db, .ok (.statPage sid))
      else
        match findStat db.stats sid with
        | none => (db, .ok .home)
        | some st =>
          if st.kind ≠ "ratio" then (db, .ok (.statPage sid))
          else
            let row : Entry :=
              { id := db.nextEntryId, stat_id := sid, day := d, value_num := none,
                value_bool := none, value_hits := some h, value_total := some t,
                note := optNote note, created_at := now }
            ({ db with entries := db.entries ++ [row], nextEntryId := db.nextEntryId + 1 },
              .ok (.statPage sid))

/-- Core of handler set_daily_count, after the count has been parsed and
the day resolved: clamps a negative count to zero, fails soft unless the
stat exists with kind count_daily, then deletes every row for the
(stat, day) pair and inserts the single canonical row. -/
def setDailyCountCore (db : MiniDB) (sid : Nat) (c : Int) (d note now : String) :
    MiniDB × Resp :=
  let c := if c < 0 then 0 else c
  match findStat db.stats sid with
  | none => (db, .home)
  | some st =>
    if st.kind ≠ "count_daily" then (db, .statPage sid)
    else
      let row : Entry :=
        { id := db.nextEntryId, stat_id := sid, day := d, value_num := some (intToReal c),
          value_bool := none, value_hits := none, value_total := none,
          note := optNote note, created_at := now }
      let kept := db.entries.filter (fun e => !(entryMatches sid d e))
      ({ db with entries := kept ++ [row], nextEntryId := db.nextEntryId + 1 },
        .statPage sid)

/-- Handler set_daily_count (POST /stat/sid/count): parses the count (a
parse failure raises and nothing is written) and runs the core. -/
def set_daily_count (db : MiniDB) (sid : Nat) (count day note today now : String) :
    MiniDB × Outcome :=
  let d := resolveDay day today
  match parseInt (pyStrip count) with
  | none => (db, .raised)
  | some c =>
    let r := setDailyCountCore db sid c d note now
    (r.1, .ok r.2)

/-- The read step of increment_daily_count: the most recent existing row
for the (stat, day) pair, its value truncated toward zero (Python int()),
with a missing row or NULL value treated as zero. -/
def currentCount (db : MiniDB) (sid : Nat) (d : String) : Int :=
  match latestEntry (db.entries.filter (entryMatches sid d)) with
  | some r =>
    match r.value_num with
    | some q => ratTruncToInt q
    | none => 0
  | none => 0

/-- Core of handler increment_daily_count, after the day has been
resolved: fails soft unless the stat exists with kind count_daily, reads
the most recent row for the (stat, day) pair via currentCount, adds one,
then deletes every row for the pair and inserts the single replacement
row with a NULL note. -/
def incrementDailyCountCore (db : MiniDB) (sid : Nat) (d now : String) : MiniDB × Resp :=
  match findStat db.stats sid with
  | none => (db, .home)
  | some st =>
    if st.kind ≠ "count_daily" then (db, .statPage sid)
    else
      let current : Int := currentCount db sid d
      let row : Entry :=
        { id := db.nextEntryId, stat_id := sid, day := d,
          value_num := some (intToReal (current + 1)),
          value_bool := none, value_hits := none, value_total := none,
          note := none, created_at := now }
      let kept := db.entries.filter (fun e => !(entryMatches sid d e))
      ({ db with entries := kept ++ [row], nextEntryId := db.nextEntryId + 1 },
        .statPage sid)

/-- Handler increment_daily_count (POST /stat/sid/count/increment). -/
def increment_daily_count (db : MiniDB) (sid : Nat) (day today now : String) :
    MiniDB × Outcome :=
  let d := resolveDay day today
  let r := incrementDailyCountCore db sid d now
  (r.1, .ok r.2)

/-! ## Write sequences against one count_daily (stat, day) pair -/

/-- One write targeting a fixed count_daily (stat, day) pair: either a
set_daily_count with a parsed count and a note, or an
increment_daily_count.  The timestamp of the write is carried along. -/
inductive CountOp where
  | set (c : Int) (note : String) (now : String) : CountOp
  | inc (now : String) : CountOp
deriving DecidableEq, Repr

/-- Applies one write for the pair (sid, d) to the store. -/
def applyCountOp (sid : Nat) (d : String) (db : MiniDB) (op : CountOp) : MiniDB :=
  match op with
  | .set c note now => (setDailyCountCore db sid c d note now).1
  | .inc now => (incrementDailyCountCore db sid d now).1

/-- Applies a sequence of writes for the pair (sid, d), oldest first. -/
def applyCountOps (sid : Nat) (d : String) (db : MiniDB) (ops : List CountOp) : MiniDB :=
  ops.foldl (applyCountOp sid d) db

end App

namespace App

/-! ## Migration model

A model of arbitrarily old on-disk states of the two tables, for the
startup migration pipeline init_db.  A table that may not exist yet is an
Option; each table carries the set of its column names, and the entries
table also carries the text of its stored CREATE statement (sqlite_master
sql), which init_db inspects textually.  A row field whose column is
absent from the table is conventionally none/irrelevant; ALTER TABLE ADD
COLUMN resets the field to the default of the new column on every row,
as SQLite does.  The model embeds the successful execution of each
migration stage; the blanket try/except wrappers in init_db only matter
on states (stray temporary tables, NOT NULL violations) outside the
modelled state space. -/

/-- A row of the stats table in an arbitrarily old schema. -/
structure MigStatRow where
  id : Nat
  name : Option String
  unit : Option String
  kind : Option String
  created_at : Option String
deriving DecidableEq, Repr

/-- A row of the entries table in an arbitrarily old schema, including
the legacy value column of the very first version. -/
structure MigEntryRow where
  id : Nat
  stat_id : Nat
  day : Option String
  value : Option Rat
  value_num : Option Rat
  value_bool : Option Int
  value_hits : Option Int
  value_total : Option Int
  note : Option String
  created_at : Option String
deriving DecidableEq, Repr

/-- The stats table: column names, rows, AUTOINCREMENT counter.  (Its
stored CREATE text is never inspected by init_db, so it is not kept.) -/
structure MigStatsTable where
  cols : List String
  rows : List MigStatRow
  nextId : Nat
deriving DecidableEq, Repr

/-- The entries table: stored CREATE text, column names, rows,
AUTOINCREMENT counter. -/
structure MigEntriesTable where
  sql : String
  cols : List String
  rows : List MigEntryRow
  nextId : Nat
deriving DecidableEq, Repr

/-- The whole on-disk state seen by init_db. -/
structure MigDB where
  stats : Option MigStatsTable
  entries : Option MigEntriesTable
deriving DecidableEq, Repr

/-- Whether the character list pat occurs at the head of the second
list. -/
def leadsWith : List Char → List Char → Bool
  | [], _ => true
  | _ :: _, [] => false
  | a :: as, b :: bs => a == b && leadsWith as bs

/-- Whether the character list pat occurs as a contiguous sublist (the
Python in operator on strings). -/
def hasSub (pat : List Char) : List Char → Bool
  | [] => leadsWith pat []
  | c :: cs => leadsWith pat (c :: cs) || hasSub pat cs

/-- Translation of _entries_table_has_unique_day: detects a
UNIQUE(stat_id, day) constraint by textual inspection of the stored
CREATE statement of the entries table (newlines replaced by spaces, the
text lowercased, then three substring tests).  The stored text stands in
for the sqlite_master query; an absent table is modelled by the caller
passing no text. -/
def entries_table_has_unique_day (sql : String) : Bool :=
  if sql = "" then false
  else
    let s := (pyReplace sql '\n' ' ').data.map Char.toLower
    hasSub "unique".data s && hasSub "stat_id".data s && hasSub "day".data s

/-- The CREATE TABLE text for entries as first created by init_db (the
comments are part of the stored text). -/
def entriesCreateSql0 : String :=
  "CREATE TABLE entries (\n" ++
  "            id INTEGER PRIMARY KEY AUTOINCREMENT,\n" ++
  "            stat_id INTEGER NOT NULL,\n" ++
  "            day TEXT NOT NULL,                 -- YYYY-MM-DD (the day the entry is FOR)\n" ++
  "            value_num REAL,                    -- numeric + count_daily stats\n" ++
  "            value_bool INTEGER,                -- legacy (unused after removing boolean_daily)\n" ++
  "            value_hits INTEGER,                -- ratio stats (hits)\n" ++
  "            value_total INTEGER,               -- ratio stats (total)\n" ++
  "            note TEXT,\n" ++
  "            created_at TEXT NOT NULL,\n" ++
  "            FOREIGN KEY(stat_id) REFERENCES stats(id) ON DELETE CASCADE\n" ++
  "        )"

/-- The CREATE TABLE text used by both table rebuilds inside init_db
(the legacy-value migration and the constraint removal use the same
statement). -/
def entriesCreateSqlRebuild : String :=
  "CREATE TABLE entries (\n" ++
  "                    id INTEGER PRIMARY KEY AUTOINCREMENT,\n" ++
  "                    stat_id INTEGER NOT NULL,\n" ++
  "                    day TEXT NOT NULL,\n" ++
  "                    value_num REAL,\n" ++
  "                    value_bool INTEGER,\n" ++
  "                    value_hits INTEGER,\n" ++
  "                    value_total INTEGER,\n" ++
  "                    note TEXT,\n" ++
  "                    created_at TEXT NOT NULL,\n" ++
  "                    FOREIGN KEY(stat_id) REFERENCES stats(id) ON DELETE CASCADE\n" ++
  "                )"

/-- Column names of the stats table in current shape. -/
def statsColsFull : List String := ["id", "name", "unit", "kind", "created_at"]

/-- Column names of the entries table in current shape. -/
def entriesColsFull : List String :=
  ["id", "stat_id", "day", "value_num", "value_bool", "value_hits", "value_total",
   "note", "created_at"]

/-- The stats table created by CREATE TABLE IF NOT EXISTS on a missing
database. -/
def freshStatsTable : MigStatsTable :=
  { cols := statsColsFull, rows := [], nextId := 1 }

/-- The entries table created by CREATE TABLE IF NOT EXISTS on a missing
database (note: no UNIQUE(stat_id, day)). -/
def freshEntriesTable : MigEntriesTable :=
  { sql := entriesCreateSql0, cols := entriesColsFull, rows := [], nextId := 1 }

/-- Effect of ALTER TABLE ... ADD COLUMN on the stored CREATE text:
SQLite splices the new column definition in before the closing
parenthesis. -/
def sqlAddCol (sql ddl : String) : String :=
  String.mk sql.data.dropLast ++ ", " ++ ddl ++ ")"

/-- Translation of add_column_if_missing for the stats table: add the
column with its default (applied to every existing row) when absent,
otherwise a no-op. -/
def addStatCol (t : MigStatsTable) (col : String) (upd : MigStatRow → MigStatRow) :
    MigStatsTable :=
  if col ∈ t.cols then t
  else { t with cols := t.cols ++ [col], rows := t.rows.map upd }

/-- Translation of add_column_if_missing for the entries table. -/
def addEntryCol (t : MigEntriesTable) (col ddl : String) (upd : MigEntryRow → MigEntryRow) :
    MigEntriesTable :=
  if col ∈ t.cols then t
  else
    { sql := sqlAddCol t.sql ddl, cols := t.cols ++ [col], rows := t.rows.map upd,
      nextId := t.nextId }

/-- The seven add_column_if_missing calls init_db makes for the entries
table: column name, DDL text, and the per-row default (NULL for all of
them). -/
def entryColSpecs : List (String × String × (MigEntryRow → MigEntryRow)) :=
  [("day", "day TEXT", fun r => { r with day := none }),
   ("value_num", "value_num REAL", fun r => { r with value_num := none }),
   ("value_bool", "value_bool INTEGER", fun r => { r with value_bool := none }),
   ("value_hits", "value_hits INTEGER", fun r => { r with value_hits := none }),
   ("value_total", "value_total INTEGER", fun r => { r with value_total := none }),
   ("note", "note TEXT", fun r => { r with note := none }),
   ("created_at", "created_at TEXT", fun r => { r with created_at := none })]

/-- Runs the seven entries add_column_if_missing calls in order. -/
def addEntryCols (t : MigEntriesTable) : MigEntriesTable :=
  entryColSpecs.foldl (fun t s => addEntryCol t s.1 s.2.1 s.2.2) t

/-- Insertion into a list of rows sorted by ascending id. -/
def insertAscEntry (r : MigEntryRow) : List MigEntryRow → List MigEntryRow
  | [] => [r]
  | x :: xs => if r.id ≤ x.id then r :: x :: xs else x :: insertAscEntry r xs

/-- SELECT * FROM ... ORDER BY id ASC used when replaying rows during a
table rebuild. -/
def sortAscEntries : List MigEntryRow → List MigEntryRow
  | [] => []
  | x :: xs => insertAscEntry x (sortAscEntries xs)

/-- The Python expression r["created_at"] or datetime.utcnow().isoformat()
in the legacy migration (an absent or empty timestamp falls back to the
current time). -/
def legacyCreated (created_at : Option String) (now : String) : String :=
  match created_at with
  | some s => if s = "" then now else s
  | none => now

/-- Derives the day from a created_at timestamp during the legacy
migration: the part before the first T when one occurs, otherwise the
first ten characters. -/
def deriveDay (created : String) : String :=
  if hasSub "T".data created.data then
    String.mk (created.data.takeWhile (fun c => c != 'T'))
  else
    String.mk (created.data.take 10)

/-- Legacy-value migration stage of init_db: when the entries table still
has the very first schema single value column, rebuild the table in
current shape, replaying every row in ascending id order (ids renumber
from 1), translating value to value_num and deriving the day from
created_at. -/
def legacyStage (now : String) (t : MigEntriesTable) : MigEntriesTable :=
  if "value" ∈ t.cols then
    let sorted := sortAscEntries t.rows
    let newRows := sorted.enum.map (fun p =>
      let r := p.2
      let created := legacyCreated r.created_at now
      { id := p.1 + 1, stat_id := r.stat_id, day := some (deriveDay created),
        value := none, value_num := r.value, value_bool := none, value_hits := none,
        value_total := none, note := r.note,
        created_at := some created : MigEntryRow })
    { sql := entriesCreateSqlRebuild, cols := entriesColsFull, rows := newRows,
      nextId := newRows.length + 1 }
  else t

/-- Greatest row id in a list of entry rows (0 when empty); the
AUTOINCREMENT counter after explicit-id inserts. -/
def maxEntryId (rows : List MigEntryRow) : Nat :=
  rows.foldl (fun m r => max m r.id) 0

/-- Constraint-removal stage of init_db: when the stored definition of
the entries table matches the textual UNIQUE(stat_id, day) detection,
rebuild the table without the constraint, replaying every row in
ascending id order with its original id and column values (the nine
current columns are copied; the rebuilt table has no value column). -/
def uniqueStage (t : MigEntriesTable) : MigEntriesTable :=
  if entries_table_has_unique_day t.sql then
    let newRows := (sortAscEntries t.rows).map (fun r => { r with value := none })
    { sql := entriesCreateSqlRebuild, cols := entriesColsFull, rows := newRows,
      nextId := maxEntryId newRows + 1 }
  else t

/-- UPDATE stats SET kind = count_daily, unit = empty WHERE kind =
boolean_daily, applied to one row. -/
def semanticStatRow (r : MigStatRow) : MigStatRow :=
  if r.kind = some "boolean_daily" then
    { r with kind := some "count_daily", unit := some "" }
  else r

/-- UPDATE entries SET value_num = 1 WHERE value_bool = 1 AND value_num
IS NULL, applied to one row. -/
def semanticEntryRow (r : MigEntryRow) : MigEntryRow :=
  if r.value_bool = some 1 ∧ r.value_num = none then
    { r with value_num := some (intToReal 1) }
  else r

/-- The two add_column_if_missing calls init_db makes for the stats
table (unit with default empty string, kind with default numeric). -/
def statsStage (t : MigStatsTable) : MigStatsTable :=
  addStatCol (addStatCol t "unit" (fun r => { r with unit := some "" })) "kind"
    (fun r => { r with kind := some "numeric" })

/-- The entries-side schema stages of init_db in source order: column
backfill, legacy-value migration, constraint removal. -/
def entriesStage (now : String) (t : MigEntriesTable) : MigEntriesTable :=
  uniqueStage (legacyStage now (addEntryCols t))

/-- The stats half of the final semantic migration (boolean_daily
reclassification). -/
def semanticStats (t : MigStatsTable) : MigStatsTable :=
  { t with rows := t.rows.map semanticStatRow }

/-- The entries half of the final semantic migration (legacy boolean
conversion). -/
def semanticEntries (t : MigEntriesTable) : MigEntriesTable :=
  { t with rows := t.rows.map semanticEntryRow }

/-- Translation of init_db: create the two tables when missing, add any
missing columns, run the legacy-value migration, the constraint removal,
and the boolean_daily reclassification, in the order of the source. -/
def init_db (now : String) (db : MigDB) : MigDB :=
  { stats := some (semanticStats (statsStage (db.stats.getD freshStatsTable))),
    entries := some (semanticEntries (entriesStage now (db.entries.getD freshEntriesTable))) }

/-- A stats table on which every init_db stage is a no-op: the backfilled
columns are present and no stat still has the deprecated boolean_daily
kind. -/
def MigratedStats (t : MigStatsTable) : Prop :=
  "unit" ∈ t.cols ∧ "kind" ∈ t.cols ∧ ∀ r ∈ t.rows, r.kind ≠ some "boolean_daily"

/-- An entries table on which every init_db stage is a no-op: the legacy
value column is gone, the backfilled columns are present, the stored
definition no longer matches the UNIQUE(stat_id, day) detection, and no
row still carries an unconverted legacy boolean flag. -/
def MigratedEntries (t : MigEntriesTable) : Prop :=
  "value" ∉ t.cols ∧ (∀ s ∈ entryColSpecs, s.1 ∈ t.cols) ∧
  entries_table_has_unique_day t.sql = false ∧
  ∀ r ∈ t.rows, ¬(r.value_bool = some 1 ∧ r.value_num = none)

/-- A database state that is fully migrated. -/
def Migrated (db : MigDB) : Prop :=
  ∃ st et, db.stats = some st ∧ db.entries = some et ∧
    MigratedStats st ∧ MigratedEntries et

end App

namespace App

/-! ## Concrete states used by witnesses -/

/-- The empty store, as on a fresh database after init_db. -/
def dbEmpty : MiniDB := { stats := [], entries := [], nextStatId := 1, nextEntryId := 1 }

/-- A numeric stat. -/
def statNumericW : Stat :=
  { id := 1, name := "Weight", unit := "kg", kind := "numeric", created_at := "t" }

/-- A hits/total stat. -/
def statRatioW : Stat :=
  { id := 2, name := "Darts", unit := "", kind := "ratio", created_at := "t" }

/-- A daily-count stat. -/
def statCountW : Stat :=
  { id := 3, name := "Workouts", unit := "", kind := "count_daily", created_at := "t" }

/-- A canonical count_daily row holding the fractional value 2.7. -/
def entryFracW : Entry :=
  { id := 1, stat_id := 3, day := "2024-03-01", value_num := some (mkRat 27 10),
    value_bool := none, value_hits := none, value_total := none, note := some "n",
    created_at := "t" }

/-- A store with one stat of each kind and one count_daily row. -/
def dbW : MiniDB :=
  { stats := [statNumericW, statRatioW, statCountW], entries := [entryFracW],
    nextStatId := 4, nextEntryId := 2 }

/-- An entries table in current column shape whose stored definition
still carries the UNIQUE(stat_id, day) constraint. -/
def migUniqueW : MigEntriesTable :=
  { sql := "CREATE TABLE entries (id INTEGER PRIMARY KEY AUTOINCREMENT, " ++
      "stat_id INTEGER NOT NULL, day TEXT NOT NULL, value_num REAL, value_bool INTEGER, " ++
      "value_hits INTEGER, value_total INTEGER, note TEXT, created_at TEXT NOT NULL, " ++
      "UNIQUE(stat_id, day))",
    cols := entriesColsFull,
    rows := [{ id := 4, stat_id := 1, day := some "2024-01-01", value := none,
               value_num := some (mkRat 7 1), value_bool := none, value_hits := none,
               value_total := none, note := some "x", created_at := some "t" }],
    nextId := 5 }

end App


namespace App

/-! ## Helper lemmas -/

/-- Nothing satisfying p survives a filter that removed everything
satisfying p. -/
theorem filter_not_filter {α : Type} (p : α → Bool) (l : List α) :
    List.filter p (List.filter (fun a => !(p a)) l) = [] := by
  induction l with
  | nil => rfl
  | cons a l ih =>
    by_cases h : p a = true
    · simp [List.filter_cons, h, ih]
    · simp only [Bool.not_eq_true] at h
      simp [List.filter_cons, h, ih]

/-- A map that fixes every element of a list is the identity on it. -/
theorem map_id_of_mem {α : Type} (f : α → α) (l : List α) (h : ∀ a ∈ l, f a = a) :
    l.map f = l := by
  induction l with
  | nil => rfl
  | cons a l ih =>
    simp only [List.map_cons, h a (List.mem_cons_self a l)]
    rw [ih (fun b hb => h b (List.mem_cons_of_mem a hb))]

end App

namespace App

/-- C4: a ratio write whose parsed hits/total violate the bounds
(total nonpositive, hits negative, or hits greater than total) persists
no Entry row and surfaces no error: the store is returned unchanged and
the caller is redirected back to the detail view. -/
theorem ratio_bounds_violation_writes_nothing (db : MiniDB) (sid : Nat)
    (hits total day note today now : String) (h t : Int)
    (hh : parseInt (pyStrip hits) = some h) (ht : parseInt (pyStrip total) = some t)
    (hbad : t ≤ 0 ∨ h < 0 ∨ h > t) :
    add_ratio_entry db sid hits total day note today now = (db, .ok (.statPage sid)) := by
  simp only [add_ratio_entry, hh, ht]
  rw [if_pos hbad]

/-- Witness for C4 at the spec §8 scenario input 51/50. -/
theorem ratio_bounds_violation_writes_nothing_witness :
    parseInt (pyStrip "51") = some 51 ∧ parseInt (pyStrip "50") = some 50 ∧
    add_ratio_entry dbW 2 "51" "50" "" "" "2024-02-02" "t4" = (dbW, .ok (.statPage 2)) :=
  ⟨by decide, by decide,
    ratio_bounds_violation_writes_nothing dbW 2 "51" "50" "" "" "2024-02-02" "t4" 51 50
      (by decide) (by decide) (by decide)⟩

/-- Counterexample for C6 as stated: the input kind " ratio " is not one
of the three enum values, yet the stored kind is "ratio", not "numeric",
because the code trims the kind before validating it. -/
theorem create_stat_kind_counterexample :
    ¬(" ratio " = "numeric" ∨ " ratio " = "ratio" ∨ " ratio " = "count_daily") ∧
    (create_stat dbEmpty "Darts" " ratio " "" "t").1.stats.map Stat.kind = ["ratio"] := by
  decide

/-- C6 (amended): the stored row of a Stat-create call has the trimmed
name; the stored kind is the trimmed input kind (a blank kind defaulting
to numeric) when that trimmed kind is one of numeric, ratio, count_daily,
and numeric otherwise; and the stored unit is empty whenever the stored
kind is not numeric (and the trimmed input unit when it is). -/
theorem create_stat_stored_fields (db : MiniDB) (name kind unit now : String) :
    ∃ s : Stat,
      (create_stat db name kind unit now).1.stats = db.stats ++ [s] ∧
      s.name = pyStrip name ∧
      s.kind = (if pyStrip (if kind = "" then "numeric" else kind) = "numeric" ∨
            pyStrip (if kind = "" then "numeric" else kind) = "ratio" ∨
            pyStrip (if kind = "" then "numeric" else kind) = "count_daily" then
          pyStrip (if kind = "" then "numeric" else kind)
        else "numeric") ∧
      s.unit = (if s.kind = "numeric" then pyStrip unit else "") := by
  refine ⟨_, rfl, rfl, rfl, ?_⟩
  exact ite_not _ _ _

end App

namespace App

/-- C7: deleting an existing Stat removes that Stat and every Entry
referencing it while keeping all other rows; deleting a nonexistent Stat
id or Entry id leaves the store unchanged and raises no error (the
handler still completes with a redirect). -/
theorem delete_stat_cascades_and_missing_ids_noop (db : MiniDB) (sid eid sid2 : Nat) :
    (db.stats.any (fun s => s.id == sid) = true →
      (∀ s ∈ (delete_stat db sid).1.stats, s.id ≠ sid) ∧
      (∀ e ∈ (delete_stat db sid).1.entries, e.stat_id ≠ sid) ∧
      (∀ s ∈ db.stats, s.id ≠ sid → s ∈ (delete_stat db sid).1.stats) ∧
      (∀ e ∈ db.entries, e.stat_id ≠ sid → e ∈ (delete_stat db sid).1.entries)) ∧
    (db.stats.any (fun s => s.id == sid) = false → delete_stat db sid = (db, .home)) ∧
    (db.entries.any (fun e => e.id == eid) = false →
      delete_entry db eid sid2 = (db, .statPage sid2)) := by
  refine ⟨fun hex => ?_, fun hnone => ?_, fun hnone => ?_⟩
  · refine ⟨?_, ?_, ?_, ?_⟩
    · intro s hs
      simp only [delete_stat, List.mem_filter, Bool.not_eq_eq_eq_not, Bool.not_true,
        beq_eq_false_iff_ne, ne_eq] at hs
      exact hs.2
    · intro e he
      simp only [delete_stat, hex, if_true, List.mem_filter, Bool.not_eq_eq_eq_not,
        Bool.not_true, beq_eq_false_iff_ne, ne_eq] at he
      exact he.2
    · intro s hs hne
      simp only [delete_stat, List.mem_filter, Bool.not_eq_eq_eq_not, Bool.not_true,
        beq_eq_false_iff_ne, ne_eq]
      exact ⟨hs, hne⟩
    · intro e he hne
      simp only [delete_stat, hex, if_true, List.mem_filter, Bool.not_eq_eq_eq_not,
        Bool.not_true, beq_eq_false_iff_ne, ne_eq]
      exact ⟨he, hne⟩
  · have hall : ∀ s ∈ db.stats, (!(s.id == sid)) = true := by
      intro s hs
      have := List.any_eq_false.mp hnone s hs
      simpa using this
    simp only [delete_stat, hnone, Bool.false_eq_true, if_false,
      List.filter_eq_self.mpr hall]
  · have hall : ∀ e ∈ db.entries, (!(e.id == eid)) = true := by
      intro e he
      have := List.any_eq_false.mp hnone e he
      simpa using this
    simp only [delete_entry, List.filter_eq_self.mpr hall]

/-- Witness for C7: cascade for stat 3 of the witness store, and no-ops
for the missing stat id 99 and missing entry id 99. -/
theorem delete_stat_cascades_and_missing_ids_noop_witness :
    (∀ e ∈ (delete_stat dbW 3).1.entries, e.stat_id ≠ 3) ∧
    delete_stat dbW 99 = (dbW, .home) ∧
    delete_entry dbW 99 2 = (dbW, .statPage 2) :=
  ⟨((delete_stat_cascades_and_missing_ids_noop dbW 3 99 2).1 (by decide)).2.1,
   (delete_stat_cascades_and_missing_ids_noop dbW 99 99 2).2.1 (by decide),
   (delete_stat_cascades_and_missing_ids_noop dbW 3 99 2).2.2 (by decide)⟩

/-- C8: add_numeric_entry parses its value accepting both dot and comma
as decimal separator; on a successful parse against a numeric Stat it
always appends one new row carrying the parsed value, and on a string
that parses under neither separator it raises (a fatal failure) with the
store unchanged. -/
theorem numeric_entry_parse_insert_or_raise (db : MiniDB) (sid : Nat)
    (value day note today now : String) :
    (∀ (v : Rat) (st : Stat), parseFloat (pyReplace value ',' '.') = some v →
      findStat db.stats sid = some st → st.kind = "numeric" →
      ∃ e : Entry,
        add_numeric_entry db sid value day note today now =
          ({ db with entries := db.entries ++ [e], nextEntryId := db.nextEntryId + 1 },
            .ok (.statPage sid)) ∧
        e.value_num = some v) ∧
    (parseFloat (pyReplace value ',' '.') = none →
      add_numeric_entry db sid value day note today now = (db, .raised)) := by
  constructor
  · intro v st hv hst hk
    let e0 : Entry :=
      { id := db.nextEntryId, stat_id := sid, day := resolveDay day today,
        value_num := some v, value_bool := none, value_hits := none, value_total := none,
        note := optNote note, created_at := now }
    refine ⟨e0, ?_, rfl⟩
    simp only [add_numeric_entry, hv, hst, hk, ne_eq]
    simp
  · intro hv
    simp only [add_numeric_entry, hv]

/-- Witness for C8: the comma input 82,4 is stored as the value 82.4 for
the numeric stat, and the malformed input 8x4 raises with the store
unchanged. -/
theorem numeric_entry_parse_insert_or_raise_witness :
    parseFloat (pyReplace "82,4" ',' '.') = some (mkRat 824 10) ∧
    (∃ e : Entry,
      add_numeric_entry dbW 1 "82,4" "" "" "2024-01-05" "t1" =
        ({ dbW with entries := dbW.entries ++ [e], nextEntryId := dbW.nextEntryId + 1 },
          .ok (.statPage 1)) ∧
      e.value_num = some (mkRat 824 10)) ∧
    add_numeric_entry dbW 1 "8x4" "" "" "2024-01-05" "t1" = (dbW, .raised) :=
  ⟨by decide,
   (numeric_entry_parse_insert_or_raise dbW 1 "82,4" "" "" "2024-01-05" "t1").1
     (mkRat 824 10) statNumericW (by decide) (by decide) (by decide),
   (numeric_entry_parse_insert_or_raise dbW 1 "8x4" "" "" "2024-01-05" "t1").2 (by decide)⟩

/-- Counterexample for C9 as stated: the whitespace-only (hence
non-empty) input name " " is persisted as the empty string, because the
core trims the name and rejects nothing. -/
theorem create_stat_blank_name_counterexample :
    (create_stat dbEmpty " " "numeric" "" "t").1.stats.map Stat.name = [""] := by
  decide

/-- C9 (amended): a Stat-create call whose name is non-blank after
trimming persists a row with a non-empty name (the trimmed input). -/
theorem create_stat_nonblank_name_persists (db : MiniDB) (name kind unit now : String)
    (h : pyStrip name ≠ "") :
    ∃ s : Stat,
      (create_stat db name kind unit now).1.stats = db.stats ++ [s] ∧ s.name ≠ "" :=
  ⟨_, rfl, h⟩

/-- Witness for C9 at the input Weight. -/
theorem create_stat_nonblank_name_persists_witness :
    pyStrip "Weight" ≠ "" ∧
    ∃ s : Stat,
      (create_stat dbEmpty "Weight" "numeric" "kg" "t").1.stats = dbEmpty.stats ++ [s] ∧
      s.name ≠ "" :=
  ⟨by decide, create_stat_nonblank_name_persists dbEmpty "Weight" "numeric" "kg" "t" (by decide)⟩

end App

namespace App

/-- A count_daily write never touches the stats table. -/
theorem applyCountOp_stats (sid : Nat) (d : String) (db : MiniDB) (op : CountOp) :
    (applyCountOp sid d db op).stats = db.stats := by
  cases op with
  | set c note now =>
    simp only [applyCountOp, setDailyCountCore]
    split
    · rfl
    · split
      · rfl
      · rfl
  | inc now =>
    simp only [applyCountOp, incrementDailyCountCore]
    split
    · rfl
    · split
      · rfl
      · rfl

/-- After any single count_daily write against a stat of the right kind,
exactly one row matches the (stat, day) pair. -/
theorem applyCountOp_one_row (sid : Nat) (d : String) (db : MiniDB) (op : CountOp)
    (st : Stat) (hst : findStat db.stats sid = some st) (hk : st.kind = "count_daily") :
    ∃ e, (applyCountOp sid d db op).entries.filter (entryMatches sid d) = [e] := by
  cases op with
  | set c note now =>
    simp only [applyCountOp, setDailyCountCore, hst, hk, ne_eq, not_true_eq_false,
      if_false]
    rw [List.filter_append, filter_not_filter, List.nil_append]
    simp [entryMatches]
  | inc now =>
    simp only [applyCountOp, incrementDailyCountCore, hst, hk, ne_eq, not_true_eq_false,
      if_false]
    rw [List.filter_append, filter_not_filter, List.nil_append]
    simp [entryMatches]

/-- C1: for a count_daily stat, after any non-empty sequence of
set_daily_count and increment_daily_count writes targeting one
(stat, day) pair, exactly one Entry row exists for that pair, because
each write deletes all rows for the pair and inserts exactly one. -/
theorem count_daily_single_row_invariant (db : MiniDB) (sid : Nat) (d : String)
    (st : Stat) (ops : List CountOp)
    (hst : findStat db.stats sid = some st) (hk : st.kind = "count_daily")
    (hne : ops ≠ []) :
    ((applyCountOps sid d db ops).entries.filter (entryMatches sid d)).length = 1 := by
  induction ops generalizing db with
  | nil => exact absurd rfl hne
  | cons o rest ih =>
    cases rest with
    | nil =>
      obtain ⟨e, he⟩ := applyCountOp_one_row sid d db o st hst hk
      simp [applyCountOps, he]
    | cons o2 rest2 =>
      have hst2 : findStat (applyCountOp sid d db o).stats sid = some st := by
        rw [applyCountOp_stats]; exact hst
      have h := ih (applyCountOp sid d db o) hst2 (by simp)
      simpa [applyCountOps] using h

/-- Witness for C1: one increment against the count_daily stat of the
witness store (which already has a canonical row for the day). -/
theorem count_daily_single_row_invariant_witness :
    findStat dbW.stats 3 = some statCountW ∧ statCountW.kind = "count_daily" ∧
    ((applyCountOps 3 "2024-03-01" dbW [CountOp.inc "t9"]).entries.filter
      (entryMatches 3 "2024-03-01")).length = 1 :=
  ⟨by decide, by decide,
    count_daily_single_row_invariant dbW 3 "2024-03-01" statCountW [CountOp.inc "t9"]
      (by decide) (by decide) (by decide)⟩

end App

namespace App

/-- Effect of one increment against a count_daily stat: the stats table
is untouched and the (stat, day) pair afterwards has exactly the one
replacement row, holding the truncated previous value plus one and a
NULL note. -/
theorem incrementCore_effect (db : MiniDB) (sid : Nat) (d now : String) (st : Stat)
    (hst : findStat db.stats sid = some st) (hk : st.kind = "count_daily") :
    (incrementDailyCountCore db sid d now).1.stats = db.stats ∧
    (incrementDailyCountCore db sid d now).1.entries.filter (entryMatches sid d) =
      [{ id := db.nextEntryId, stat_id := sid, day := d,
         value_num := some (intToReal (currentCount db sid d + 1)),
         value_bool := none, value_hits := none, value_total := none,
         note := none, created_at := now }] := by
  constructor
  · simp [incrementDailyCountCore, hst, hk]
  · simp only [incrementDailyCountCore, hst, hk, ne_eq, not_true_eq_false, if_false]
    rw [List.filter_append, filter_not_filter, List.nil_append]
    simp [entryMatches]

/-- C3: for a count_daily stat and a (stat, day) pair with no existing
row, two increments in sequence leave exactly one row for the pair, with
value 2 and a NULL note. -/
theorem increment_twice_fresh_pair (db : MiniDB) (sid : Nat) (d now1 now2 : String)
    (st : Stat) (hst : findStat db.stats sid = some st) (hk : st.kind = "count_daily")
    (hempty : db.entries.filter (entryMatches sid d) = []) :
    ∃ e, ((incrementDailyCountCore (incrementDailyCountCore db sid d now1).1 sid d
        now2).1.entries.filter (entryMatches sid d)) = [e] ∧
      e.value_num = some 2 ∧ e.note = none := by
  obtain ⟨hs1, hf1⟩ := incrementCore_effect db sid d now1 st hst hk
  have hc1 : currentCount db sid d = 0 := by
    simp [currentCount, hempty, latestEntry]
  have hst2 : findStat (incrementDailyCountCore db sid d now1).1.stats sid = some st := by
    rw [hs1]; exact hst
  obtain ⟨-, hf2⟩ :=
    incrementCore_effect (incrementDailyCountCore db sid d now1).1 sid d now2 st hst2 hk
  have hc2 : currentCount (incrementDailyCountCore db sid d now1).1 sid d = 1 := by
    unfold currentCount
    rw [hf1, hc1]
    simp only [latestEntry]
    decide
  refine ⟨_, hf2, ?_, rfl⟩
  show some (intToReal (currentCount (incrementDailyCountCore db sid d now1).1 sid d + 1))
      = some 2
  rw [hc2]
  decide

/-- Witness for C3 at the spec §8 scenario: two increments on a fresh
day of the count_daily stat. -/
theorem increment_twice_fresh_pair_witness :
    dbW.entries.filter (entryMatches 3 "2024-03-05") = [] ∧
    ∃ e, ((incrementDailyCountCore (incrementDailyCountCore dbW 3 "2024-03-05" "ta").1 3
        "2024-03-05" "tb").1.entries.filter (entryMatches 3 "2024-03-05")) = [e] ∧
      e.value_num = some 2 ∧ e.note = none :=
  ⟨by decide,
    increment_twice_fresh_pair dbW 3 "2024-03-05" "ta" "tb" statCountW
      (by decide) (by decide) (by decide)⟩

/-- C10: when the canonical row for a count_daily (stat, day) pair holds
a fractional value, increment_daily_count truncates it toward zero before
adding one; the replacement row holds that truncated successor. -/
theorem increment_truncates_fractional_value (db : MiniDB) (sid : Nat) (d now : String)
    (st : Stat) (r : Entry) (q : Rat)
    (hst : findStat db.stats sid = some st) (hk : st.kind = "count_daily")
    (hrow : db.entries.filter (entryMatches sid d) = [r]) (hq : r.value_num = some q) :
    ∃ e, (incrementDailyCountCore db sid d now).1.entries.filter (entryMatches sid d)
        = [e] ∧
      e.value_num = some (intToReal (ratTruncToInt q + 1)) := by
  obtain ⟨-, hf⟩ := incrementCore_effect db sid d now st hst hk
  have hc : currentCount db sid d = ratTruncToInt q := by
    simp [currentCount, hrow, latestEntry, hq]
  refine ⟨_, hf, ?_⟩
  show some (intToReal (currentCount db sid d + 1)) = some (intToReal (ratTruncToInt q + 1))
  rw [hc]

/-- Witness for C10: the stored value 2.7 yields a single replacement
row with value 3, not 3.7. -/
theorem increment_truncates_fractional_value_witness :
    dbW.entries.filter (entryMatches 3 "2024-03-01") = [entryFracW] ∧
    entryFracW.value_num = some (mkRat 27 10) ∧
    intToReal (ratTruncToInt (mkRat 27 10) + 1) = mkRat 3 1 ∧
    ∃ e, (incrementDailyCountCore dbW 3 "2024-03-01" "t9").1.entries.filter
        (entryMatches 3 "2024-03-01") = [e] ∧
      e.value_num = some (intToReal (ratTruncToInt (mkRat 27 10) + 1)) :=
  ⟨by decide, by decide, by decide,
    increment_truncates_fractional_value dbW 3 "2024-03-01" "t9" statCountW entryFracW
      (mkRat 27 10) (by decide) (by decide) (by decide) (by decide)⟩

end App

namespace App

/-- Inserting into an id-sorted list permutes the consed list. -/
theorem insertAscEntry_perm (r : MigEntryRow) (l : List MigEntryRow) :
    (insertAscEntry r l).Perm (r :: l) := by
  induction l with
  | nil => exact List.Perm.refl _
  | cons x xs ih =>
    simp only [insertAscEntry]
    split
    · exact List.Perm.refl _
    · exact (List.Perm.cons x ih).trans (List.Perm.swap r x xs)

/-- Replaying rows in ascending id order permutes the rows. -/
theorem sortAscEntries_perm (l : List MigEntryRow) : (sortAscEntries l).Perm l := by
  induction l with
  | nil => exact List.Perm.refl _
  | cons x xs ih =>
    simp only [sortAscEntries]
    exact (insertAscEntry_perm x (sortAscEntries xs)).trans (List.Perm.cons x ih)

/-- The CREATE statement used by the rebuilds carries no UNIQUE text, so
the detector is false on a rebuilt table. -/
theorem hasUniqueDay_rebuild_false :
    entries_table_has_unique_day entriesCreateSqlRebuild = false := by
  decide

/-- C5: the constraint-removal stage rebuilds the entries table exactly
when the stored definition matches the textual UNIQUE(stat_id, day)
detection; the rebuilt table no longer matches it, and it contains every
row of the old table with its original identity and column values (for a
table whose legacy value column is unpopulated, as it is whenever this
stage runs inside init_db). -/
theorem unique_constraint_removal (et : MigEntriesTable)
    (hval : ∀ r ∈ et.rows, r.value = none) :
    (entries_table_has_unique_day et.sql = false → uniqueStage et = et) ∧
    (entries_table_has_unique_day et.sql = true →
      (uniqueStage et).sql = entriesCreateSqlRebuild ∧
      entries_table_has_unique_day (uniqueStage et).sql = false ∧
      (uniqueStage et).rows.Perm et.rows) := by
  constructor
  · intro h
    simp [uniqueStage, h]
  · intro h
    have hmap : (sortAscEntries et.rows).map (fun r => { r with value := none }) =
        sortAscEntries et.rows := by
      apply map_id_of_mem
      intro r hr
      have hv := hval r ((sortAscEntries_perm et.rows).mem_iff.mp hr)
      cases r
      simp only at hv
      simp [hv]
    refine ⟨?_, ?_, ?_⟩
    · simp [uniqueStage, h]
    · simp only [uniqueStage, h, if_true]
      exact hasUniqueDay_rebuild_false
    · simp only [uniqueStage, h, if_true]
      rw [hmap]
      exact sortAscEntries_perm et.rows

/-- Witness for C5: a one-row table whose stored definition carries the
constraint is rebuilt with the row preserved; the rebuilt definition no
longer matches the detector. -/
theorem unique_constraint_removal_witness :
    (∀ r ∈ migUniqueW.rows, r.value = none) ∧
    entries_table_has_unique_day migUniqueW.sql = true ∧
    (uniqueStage migUniqueW).sql = entriesCreateSqlRebuild ∧
    (uniqueStage migUniqueW).rows.Perm migUniqueW.rows :=
  ⟨by decide, by decide,
    ((unique_constraint_removal migUniqueW (by decide)).2 (by decide)).1,
    ((unique_constraint_removal migUniqueW (by decide)).2 (by decide)).2.2⟩

end App

namespace App

/-- add_column_if_missing is a no-op when the stats column is present. -/
theorem addStatCol_nop (t : MigStatsTable) (col : String) (upd : MigStatRow → MigStatRow)
    (h : col ∈ t.cols) : addStatCol t col upd = t := by
  simp [addStatCol, h]

/-- add_column_if_missing leaves the stats column present. -/
theorem addStatCol_mem (t : MigStatsTable) (col : String) (upd : MigStatRow → MigStatRow) :
    col ∈ (addStatCol t col upd).cols := by
  unfold addStatCol
  split
  · assumption
  · simp

/-- add_column_if_missing never removes a stats column. -/
theorem addStatCol_mem_mono (t : MigStatsTable) (c col : String)
    (upd : MigStatRow → MigStatRow) (h : c ∈ t.cols) :
    c ∈ (addStatCol t col upd).cols := by
  unfold addStatCol
  split
  · exact h
  · simp [h]

/-- add_column_if_missing is a no-op when the entries column is present. -/
theorem addEntryCol_nop (t : MigEntriesTable) (col ddl : String)
    (upd : MigEntryRow → MigEntryRow) (h : col ∈ t.cols) :
    addEntryCol t col ddl upd = t := by
  simp [addEntryCol, h]

/-- add_column_if_missing leaves the entries column present. -/
theorem addEntryCol_mem (t : MigEntriesTable) (col ddl : String)
    (upd : MigEntryRow → MigEntryRow) : col ∈ (addEntryCol t col ddl upd).cols := by
  unfold addEntryCol
  split
  · assumption
  · simp

/-- add_column_if_missing never removes an entries column. -/
theorem addEntryCol_mem_mono (t : MigEntriesTable) (c col ddl : String)
    (upd : MigEntryRow → MigEntryRow) (h : c ∈ t.cols) :
    c ∈ (addEntryCol t col ddl upd).cols := by
  unfold addEntryCol
  split
  · exact h
  · simp [h]

/-- A run of add_column_if_missing calls is a no-op when every listed
column is present. -/
theorem foldl_addEntryCol_nop (specs : List (String × String × (MigEntryRow → MigEntryRow)))
    (t : MigEntriesTable) (h : ∀ s ∈ specs, s.1 ∈ t.cols) :
    specs.foldl (fun t s => addEntryCol t s.1 s.2.1 s.2.2) t = t := by
  induction specs generalizing t with
  | nil => rfl
  | cons a tl ih =>
    rw [List.foldl_cons, addEntryCol_nop _ _ _ _ (h a (List.mem_cons_self a tl))]
    exact ih t (fun s hs => h s (List.mem_cons_of_mem a hs))

/-- A run of add_column_if_missing calls never removes a column. -/
theorem foldl_addEntryCol_mono (specs : List (String × String × (MigEntryRow → MigEntryRow)))
    (t : MigEntriesTable) (c : String) (h : c ∈ t.cols) :
    c ∈ ((specs.foldl (fun t s => addEntryCol t s.1 s.2.1 s.2.2) t).cols) := by
  induction specs generalizing t with
  | nil => exact h
  | cons a tl ih =>
    rw [List.foldl_cons]
    exact ih _ (addEntryCol_mem_mono _ _ _ _ _ h)

/-- After a run of add_column_if_missing calls every listed column is
present. -/
theorem foldl_addEntryCol_mem (specs : List (String × String × (MigEntryRow → MigEntryRow)))
    (t : MigEntriesTable) :
    ∀ s ∈ specs, s.1 ∈ ((specs.foldl (fun t s => addEntryCol t s.1 s.2.1 s.2.2) t).cols) := by
  induction specs generalizing t with
  | nil => intro s hs; cases hs
  | cons a tl ih =>
    intro s hs
    rw [List.foldl_cons]
    rcases List.mem_cons.mp hs with rfl | h2
    · exact foldl_addEntryCol_mono tl _ _ (addEntryCol_mem _ _ _ _)
    · exact ih _ s h2

/-- The column backfill pass is a no-op on a migrated entries table. -/
theorem addEntryCols_nop (t : MigEntriesTable) (h : ∀ s ∈ entryColSpecs, s.1 ∈ t.cols) :
    addEntryCols t = t :=
  foldl_addEntryCol_nop entryColSpecs t h

/-- The legacy migration is a no-op when no value column exists. -/
theorem legacyStage_nop (now : String) (t : MigEntriesTable) (h : "value" ∉ t.cols) :
    legacyStage now t = t := by
  unfold legacyStage
  rw [if_neg h]

/-- After the legacy migration the value column is gone. -/
theorem legacyStage_value_out (now : String) (t : MigEntriesTable) :
    "value" ∉ (legacyStage now t).cols := by
  unfold legacyStage
  split
  · intro hmem
    simp [entriesColsFull] at hmem
  · next h => exact h

/-- The legacy migration keeps every backfilled column present. -/
theorem legacyStage_specs (now : String) (t : MigEntriesTable)
    (h : ∀ s ∈ entryColSpecs, s.1 ∈ t.cols) :
    ∀ s ∈ entryColSpecs, s.1 ∈ (legacyStage now t).cols := by
  unfold legacyStage
  split
  · intro s hs
    have hall : ∀ s ∈ entryColSpecs, s.1 ∈ entriesColsFull := by decide
    exact hall s hs
  · exact h

/-- The constraint removal is a no-op when the detector is false. -/
theorem uniqueStage_nop (t : MigEntriesTable)
    (h : entries_table_has_unique_day t.sql = false) : uniqueStage t = t := by
  unfold uniqueStage
  rw [h]
  rfl

/-- The constraint removal never reintroduces a value column. -/
theorem uniqueStage_value_out (t : MigEntriesTable) (h : "value" ∉ t.cols) :
    "value" ∉ (uniqueStage t).cols := by
  unfold uniqueStage
  split
  · intro hmem
    simp [entriesColsFull] at hmem
  · exact h

/-- The constraint removal keeps every backfilled column present. -/
theorem uniqueStage_specs (t : MigEntriesTable)
    (h : ∀ s ∈ entryColSpecs, s.1 ∈ t.cols) :
    ∀ s ∈ entryColSpecs, s.1 ∈ (uniqueStage t).cols := by
  unfold uniqueStage
  split
  · intro s hs
    have hall : ∀ s ∈ entryColSpecs, s.1 ∈ entriesColsFull := by decide
    exact hall s hs
  · exact h

/-- After the constraint removal the stored definition never matches the
detector. -/
theorem uniqueStage_sql_ok (t : MigEntriesTable) :
    entries_table_has_unique_day (uniqueStage t).sql = false := by
  unfold uniqueStage
  split
  · exact hasUniqueDay_rebuild_false
  · next h => simpa using h

/-- The reclassification leaves no stat with the deprecated kind. -/
theorem semanticStatRow_ok (r : MigStatRow) :
    (semanticStatRow r).kind ≠ some "boolean_daily" := by
  unfold semanticStatRow
  split
  · simp
  · next h => exact h

/-- The boolean conversion leaves no unconverted legacy flag. -/
theorem semanticEntryRow_ok (r : MigEntryRow) :
    ¬((semanticEntryRow r).value_bool = some 1 ∧ (semanticEntryRow r).value_num = none) := by
  unfold semanticEntryRow
  split
  · intro hcon
    simp at hcon
  · next h => exact h

/-- The semantic migration does not change the stats columns. -/
theorem semanticStats_cols (t : MigStatsTable) : (semanticStats t).cols = t.cols := rfl

/-- The rows after the stats semantic migration. -/
theorem semanticStats_rows (t : MigStatsTable) :
    (semanticStats t).rows = t.rows.map semanticStatRow := rfl

/-- The semantic migration does not change the entries columns. -/
theorem semanticEntries_cols (t : MigEntriesTable) : (semanticEntries t).cols = t.cols := rfl

/-- The semantic migration does not change the stored definition. -/
theorem semanticEntries_sql (t : MigEntriesTable) : (semanticEntries t).sql = t.sql := rfl

/-- The rows after the entries semantic migration. -/
theorem semanticEntries_rows (t : MigEntriesTable) :
    (semanticEntries t).rows = t.rows.map semanticEntryRow := rfl

/-- The stats pipeline of init_db always ends in a migrated stats
table. -/
theorem migratedStats_pipeline (t : MigStatsTable) :
    MigratedStats (semanticStats (statsStage t)) := by
  unfold MigratedStats
  rw [semanticStats_cols, semanticStats_rows]
  unfold statsStage
  refine ⟨?_, ?_, ?_⟩
  · exact addStatCol_mem_mono _ _ _ _ (addStatCol_mem _ "unit" _)
  · exact addStatCol_mem _ "kind" _
  · intro r hr
    simp only [List.mem_map] at hr
    obtain ⟨r0, -, rfl⟩ := hr
    exact semanticStatRow_ok r0

/-- The entries pipeline of init_db always ends in a migrated entries
table. -/
theorem migratedEntries_pipeline (now : String) (t : MigEntriesTable) :
    MigratedEntries (semanticEntries (entriesStage now t)) := by
  unfold MigratedEntries
  rw [semanticEntries_cols, semanticEntries_sql, semanticEntries_rows]
  unfold entriesStage
  refine ⟨?_, ?_, ?_, ?_⟩
  · exact uniqueStage_value_out _ (legacyStage_value_out now _)
  · exact uniqueStage_specs _ (legacyStage_specs now _ (foldl_addEntryCol_mem entryColSpecs _))
  · exact uniqueStage_sql_ok _
  · intro r hr
    simp only [List.mem_map] at hr
    obtain ⟨r0, -, rfl⟩ := hr
    exact semanticEntryRow_ok r0

/-- Every run of init_db ends in a migrated state. -/
theorem init_db_migrated (now : String) (db : MigDB) : Migrated (init_db now db) :=
  ⟨_, _, rfl, rfl, migratedStats_pipeline _, migratedEntries_pipeline now _⟩

/-- init_db is the identity on a migrated state: every stage is a no-op
when already applied. -/
theorem init_db_noop (now : String) (db : MigDB) (h : Migrated db) : init_db now db = db := by
  obtain ⟨st, et, hs, he, ⟨hu, hk, hrows⟩, ⟨hv, hspecs, hsql, herows⟩⟩ := h
  obtain ⟨dstats, dentries⟩ := db
  simp only at hs he
  subst hs
  subst he
  simp only [init_db, Option.getD_some, statsStage, entriesStage]
  rw [addStatCol_nop _ _ _ hu, addStatCol_nop _ _ _ hk, addEntryCols_nop _ hspecs,
    legacyStage_nop _ _ hv, uniqueStage_nop _ hsql]
  have h1 : semanticStats st = st := by
    have : st.rows.map semanticStatRow = st.rows := by
      apply map_id_of_mem
      intro r hr
      unfold semanticStatRow
      rw [if_neg (hrows r hr)]
    unfold semanticStats
    rw [this]
  have h2 : semanticEntries et = et := by
    have : et.rows.map semanticEntryRow = et.rows := by
      apply map_id_of_mem
      intro r hr
      unfold semanticEntryRow
      rw [if_neg (herows r hr)]
    unfold semanticEntries
    rw [this]
  rw [h1, h2]

/-- C2: running init_db twice in a row on any database state yields,
after the second run, exactly the state after the first run: every stage
(column backfill, legacy value migration, constraint removal,
boolean_daily reclassification) is a no-op when already applied. -/
theorem init_db_idempotent (db : MigDB) (now1 now2 : String) :
    init_db now2 (init_db now1 db) = init_db now1 db :=
  init_db_noop now2 _ (init_db_migrated now1 db)

end App
